import Mathlib

/-
  Verification of the Order Execution Engine (Solana DEX order router).

  Shallow embedding of the TypeScript sources:
    - src/types/order.types.ts        (data model)
    - src/services/dex/mock-dex.router.ts  (price router)
    - src/queue/workers/order.worker.ts    (worker pipeline, selection, messages)
    - src/queue/order.queue.ts        (queue configuration)
    - src/services/order.service.ts   (in-memory order store)
    - src/controllers (order controller: validation, creation, enqueue)
    - src/websocket/ws.gateway.ts     (subscriber registry)

  Numeric values (JavaScript numbers) are modelled as rationals; timestamps as
  naturals; JavaScript `Math.random()` draws are explicit parameters in [0,1).
-/

set_option autoImplicit false

namespace OrderEngine

/-! ## Data model (src/types/order.types.ts) -/

/-- The `OrderStatus` union type: five lifecycle statuses. -/
inductive OrderStatus where
  | pending
  | routing
  | building
  | submitted
  | confirmed
  deriving DecidableEq, Repr

/-- The `Order` interface. Optional TypeScript fields become `Option`. -/
structure Order where
  orderId : String
  fromToken : String
  toToken : String
  amount : ℚ
  status : OrderStatus
  createdAt : ℕ
  updatedAt : ℕ
  selectedDex : Option String := none
  outputAmount : Option ℚ := none
  transactionHash : Option String := none
  deriving DecidableEq, Repr

/-- The `DEXQuote` interface: venue identifier, output amount, price, fee. -/
structure DEXQuote where
  dex : String
  output : ℚ
  price : ℚ
  fee : ℚ
  deriving DecidableEq, Repr

/-- The `OrderJobData` interface: payload carried by a queued job. -/
structure OrderJobData where
  orderId : String
  fromToken : String
  toToken : String
  amount : ℚ
  deriving DecidableEq, Repr

/-- The `OrderProgress` interface: the progress event published on the bus.
The optional `data` partial snapshot is flattened into its three fields. -/
structure OrderProgress where
  orderId : String
  status : OrderStatus
  progress : ℕ
  message : Option String := none
  dataSelectedDex : Option String := none
  dataOutputAmount : Option ℚ := none
  dataTransactionHash : Option String := none
  deriving DecidableEq, Repr

/-! ## Price router (src/services/dex/mock-dex.router.ts) -/

/-- The `priceMap` table inside `getBasePrice`. -/
def priceMap : List (String × ℚ) :=
  [("SOL-USDC", 100), ("USDC-SOL", 1/100), ("SOL-USDT", 100), ("USDT-SOL", 1/100)]

/-- `getBasePrice(tokenIn, tokenOut)`: lookup keyed by `tokenIn + "-" + tokenOut`,
defaulting to 100 when the pair is not in the table (`priceMap[key] || 100`;
every table value is nonzero, so `||` is exactly a missing-key default). -/
def getBasePrice (tokenIn tokenOut : String) : ℚ :=
  (priceMap.lookup (tokenIn ++ "-" ++ tokenOut)).getD 100

/-- Raydium fee rate: `const fee = 0.003`. -/
def raydiumFeeRate : ℚ := 3/1000

/-- Meteora fee rate: `const fee = 0.002`. -/
def meteoraFeeRate : ℚ := 2/1000

/-- Raydium variance factor `0.98 + Math.random() * 0.04`, with the random
draw `r` made explicit. -/
def raydiumVarianceFactor (r : ℚ) : ℚ := 98/100 + r * (4/100)

/-- Meteora variance factor `0.97 + Math.random() * 0.05`, with the random
draw `r` made explicit. -/
def meteoraVarianceFactor (r : ℚ) : ℚ := 97/100 + r * (5/100)

/-- `MockDexRouter.getRaydiumQuote` (the delay is irrelevant to the values). -/
def getRaydiumQuote (tokenIn tokenOut : String) (amount r : ℚ) : DEXQuote :=
  let basePrice := getBasePrice tokenIn tokenOut
  let price := basePrice * raydiumVarianceFactor r
  { dex := "raydium"
    output := amount * price * (1 - raydiumFeeRate)
    price := price
    fee := amount * price * raydiumFeeRate }

/-- `MockDexRouter.getMeteoraQuote` (the delay is irrelevant to the values). -/
def getMeteoraQuote (tokenIn tokenOut : String) (amount r : ℚ) : DEXQuote :=
  let basePrice := getBasePrice tokenIn tokenOut
  let price := basePrice * meteoraVarianceFactor r
  { dex := "meteora"
    output := amount * price * (1 - meteoraFeeRate)
    price := price
    fee := amount * price * meteoraFeeRate }

/-! ## Best-quote selection (src/queue/workers/order.worker.ts, line 103) -/

/-- The worker's selection expression:
`meteoraQuote.output > raydiumQuote.output ? meteoraQuote : raydiumQuote`. -/
def selectBest (raydiumQuote meteoraQuote : DEXQuote) : DEXQuote :=
  if meteoraQuote.output > raydiumQuote.output then meteoraQuote else raydiumQuote

/-! ## Status messages (worker and gateway copies) -/

/-- `getStatusMessage` as defined in src/queue/workers/order.worker.ts. -/
def workerGetStatusMessage (status : OrderStatus) : String :=
  match status with
  | .pending => "Order is pending"
  | .routing => "Finding best DEX route..."
  | .building => "Building transaction..."
  | .submitted => "Transaction submitted to blockchain"
  | .confirmed => "Transaction confirmed"

/-- `WebSocketGateway.getStatusMessage` as defined in src/websocket/ws.gateway.ts. -/
def gatewayGetStatusMessage (status : OrderStatus) : String :=
  match status with
  | .pending => "Order is pending"
  | .routing => "Finding best DEX route..."
  | .building => "Building transaction..."
  | .submitted => "Transaction submitted to blockchain"
  | .confirmed => "Transaction confirmed"

/-! ## In-memory Order Store (src/services/order.service.ts, Map-backed variant) -/

/-- The store: the module-level `ordersStore` Map, modelled as an association
list from order id to order. -/
abbrev OrdersStore := List (String × Order)

/-- `OrderService.createOrder`: builds the pending order (the uuid and clock
are explicit parameters). -/
def mkOrder (fromToken toToken : String) (amount : ℚ) (orderId : String) (now : ℕ) : Order :=
  { orderId := orderId
    fromToken := fromToken
    toToken := toToken
    amount := amount
    status := .pending
    createdAt := now
    updatedAt := now }

/-- `OrderService.getOrder`: `ordersStore.get(orderId)`. -/
def getOrder (store : OrdersStore) (orderId : String) : Option Order :=
  store.lookup orderId

/-- The update payload actually accepted by the worker's update path
(src/queue/workers/order.worker.ts, line 40): at most a selected venue, an
output amount and a transaction hash. -/
structure OrderUpdates where
  selectedDex : Option String := none
  outputAmount : Option ℚ := none
  transactionHash : Option String := none
  deriving DecidableEq, Repr

/-- The merge `{ ...order, ...updates, status, updatedAt: new Date() }`:
a provided field overrides, an absent field keeps the stored value. -/
def applyUpdates (o : Order) (status : OrderStatus) (upd : OrderUpdates) (now : ℕ) : Order :=
  { o with
    status := status
    updatedAt := now
    selectedDex := match upd.selectedDex with | some v => some v | none => o.selectedDex
    outputAmount := match upd.outputAmount with | some v => some v | none => o.outputAmount
    transactionHash :=
      match upd.transactionHash with | some v => some v | none => o.transactionHash }

/-- `OrderService.updateOrderStatus`: not-found returns `null` and writes
nothing; otherwise the merged order is written back under the same id.
Returns the `Order | null` result together with the resulting store. -/
def updateOrderStatus (store : OrdersStore) (orderId : String) (status : OrderStatus)
    (upd : OrderUpdates) (now : ℕ) : Option Order × OrdersStore :=
  match store.lookup orderId with
  | none => (none, store)
  | some o =>
    let updated := applyUpdates o status upd now
    (some updated, store.map (fun p => if p.1 = orderId then (p.1, updated) else p))

/-! ## Order controller (OrderController.createOrder) -/

/-- The raw request body: each field may be absent. -/
structure CreateOrderInput where
  fromToken : Option String
  toToken : Option String
  amount : Option ℚ
  deriving DecidableEq, Repr

/-- JavaScript falsiness of an optional string: absent or empty. -/
def strFalsy (v : Option String) : Bool :=
  match v with
  | none => true
  | some s => s == ""

/-- JavaScript falsiness of an optional number: absent or zero. -/
def amountFalsy (v : Option ℚ) : Bool :=
  match v with
  | none => true
  | some a => a == 0

/-- The controller's guard `!fromToken || !toToken || !amount || amount <= 0`
(when `amount` is absent the short-circuited last disjunct is not reached). -/
def invalidRequest (req : CreateOrderInput) : Bool :=
  strFalsy req.fromToken || strFalsy req.toToken || amountFalsy req.amount ||
    (match req.amount with
     | none => false
     | some a => decide (a ≤ 0))

/-- The controller's HTTP reply, restricted to the fields the claims need. -/
structure ControllerReply where
  code : ℕ
  orderId : Option String := none
  status : Option OrderStatus := none
  deriving DecidableEq, Repr

/-- Application state touched by order submission: the order store and the
sequence of enqueued jobs. -/
structure AppState where
  orders : OrdersStore
  jobs : List OrderJobData
  deriving DecidableEq, Repr

/-- `OrderController.createOrder`: reject invalid input with a 400 and no side
effect; otherwise create one pending order and enqueue exactly one job carrying
the order id, the token pair and the amount (reply 201). -/
def createOrderController (req : CreateOrderInput) (newId : String) (now : ℕ)
    (st : AppState) : ControllerReply × AppState :=
  if invalidRequest req then ({ code := 400 }, st)
  else
    match req.fromToken, req.toToken, req.amount with
    | some f, some t, some a =>
      let order := mkOrder f t a newId now
      ({ code := 201, orderId := some newId, status := some order.status },
       { orders := (newId, order) :: st.orders
         jobs := st.jobs ++ [{ orderId := newId, fromToken := f, toToken := t, amount := a }] })
    | _, _, _ => ({ code := 400 }, st)

/-! ## Worker pipeline (src/queue/workers/order.worker.ts, processOrder) -/

/-- Result of `MockDexRouter.executeSwap`. -/
structure SwapResult where
  txHash : String
  executedPrice : ℚ
  deriving DecidableEq, Repr

/-- Observable side effects of one `processOrder` run: order-store writes
(`updateOrderStatus`) and bus publishes (`broadcastProgress`). -/
inductive WorkerEvent where
  | storeWrite (orderId : String) (status : OrderStatus)
      (selectedDex : Option String) (outputAmount : Option ℚ)
      (transactionHash : Option String)
  | publish (p : OrderProgress)
  deriving DecidableEq, Repr

/-- Outcomes of the fallible collaborators `processOrder` awaits: the two venue
quotes, the swap simulation, and the four order-store writes. A `.error`
models the corresponding awaited promise rejecting. -/
structure WorkerEnv where
  raydiumResult : Except String DEXQuote
  meteoraResult : Except String DEXQuote
  swapResult : Except String SwapResult
  routingWrite : Except String Unit
  buildingWrite : Except String Unit
  submittedWrite : Except String Unit
  confirmedWrite : Except String Unit

/-- The catch-block publish: progress 0, status `pending`, message
`Order failed: <error message>`. -/
def failEvent (orderId e : String) : WorkerEvent :=
  .publish
    { orderId := orderId
      status := .pending
      progress := 0
      message := some ("Order failed: " ++ e) }

/-- `processOrder`: the four-stage pipeline. Returns the event trace and the
handler outcome; any collaborator error short-circuits into the catch block,
which publishes exactly one progress-0 event and re-throws the same error. -/
def processOrder (d : OrderJobData) (env : WorkerEnv) :
    List WorkerEvent × Except String Unit :=
  match env.routingWrite with
  | .error e => ([failEvent d.orderId e], .error e)
  | .ok _ =>
    let t1 : List WorkerEvent :=
      [ .storeWrite d.orderId .routing none none none,
        .publish { orderId := d.orderId, status := .routing, progress := 20,
                   message := some (workerGetStatusMessage .routing) } ]
    match env.raydiumResult, env.meteoraResult with
    | .error e, _ => (t1 ++ [failEvent d.orderId e], .error e)
    | .ok _, .error e => (t1 ++ [failEvent d.orderId e], .error e)
    | .ok raydiumQuote, .ok meteoraQuote =>
      let bestQuote := selectBest raydiumQuote meteoraQuote
      match env.buildingWrite with
      | .error e => (t1 ++ [failEvent d.orderId e], .error e)
      | .ok _ =>
        let t2 := t1 ++
          [ .storeWrite d.orderId .building (some bestQuote.dex) (some bestQuote.output) none,
            .publish { orderId := d.orderId, status := .building, progress := 40,
                       message := some (workerGetStatusMessage .building),
                       dataSelectedDex := some bestQuote.dex,
                       dataOutputAmount := some bestQuote.output } ]
        match env.swapResult with
        | .error e => (t2 ++ [failEvent d.orderId e], .error e)
        | .ok swap =>
          match env.submittedWrite with
          | .error e => (t2 ++ [failEvent d.orderId e], .error e)
          | .ok _ =>
            let t3 := t2 ++
              [ .storeWrite d.orderId .submitted none none (some swap.txHash),
                .publish { orderId := d.orderId, status := .submitted, progress := 60,
                           message := some (workerGetStatusMessage .submitted),
                           dataTransactionHash := some swap.txHash } ]
            match env.confirmedWrite with
            | .error e => (t3 ++ [failEvent d.orderId e], .error e)
            | .ok _ =>
              (t3 ++
                [ .storeWrite d.orderId .confirmed none none none,
                  .publish { orderId := d.orderId, status := .confirmed, progress := 100,
                             message := some (workerGetStatusMessage .confirmed) } ],
               .ok ())

/-- Statuses written to the Order Store along a trace, in order. -/
def storeStatuses (tr : List WorkerEvent) : List OrderStatus :=
  tr.filterMap (fun ev =>
    match ev with
    | .storeWrite _ s _ _ _ => some s
    | .publish _ => none)

/-- Progress values published along a trace, in order. -/
def publishedProgress (tr : List WorkerEvent) : List ℕ :=
  tr.filterMap (fun ev =>
    match ev with
    | .storeWrite _ _ _ _ _ => none
    | .publish p => some p.progress)

/-- Statuses carried by published progress events along a trace, in order. -/
def publishedStatuses (tr : List WorkerEvent) : List OrderStatus :=
  tr.filterMap (fun ev =>
    match ev with
    | .storeWrite _ _ _ _ _ => none
    | .publish p => some p.status)

/-- Count of progress-0 publishes (failure notifications) in a trace. -/
def failPublishCount (tr : List WorkerEvent) : ℕ :=
  tr.countP (fun ev =>
    match ev with
    | .storeWrite _ _ _ _ _ => false
    | .publish p => p.progress == 0)

/-! ## Queue configuration and retry engine (src/queue/order.queue.ts) -/

/-- The `backoff` entry of the queue's `defaultJobOptions`. -/
structure BackoffOptions where
  kind : String
  delay : ℕ
  deriving DecidableEq, Repr

/-- The retry-relevant part of `defaultJobOptions`. -/
structure JobOptions where
  attempts : ℕ
  backoff : BackoffOptions
  deriving DecidableEq, Repr

/-- The configuration installed on the `order-execution` queue:
`attempts: 3, backoff: { type: exponential, delay: 2000 }`. -/
def orderQueueJobOptions : JobOptions :=
  { attempts := 3, backoff := { kind := "exponential", delay := 2000 } }

/-- Modelled from the spec: the retry engine itself lives in the bullmq
library, not in this repository. Exponential backoff delay before the next
attempt once `attemptsMade` attempts have failed: base delay times 2 to the
number of prior attempts beyond the first. -/
def retryDelay (opts : JobOptions) (attemptsMade : ℕ) : ℕ :=
  opts.backoff.delay * 2 ^ (attemptsMade - 1)

/-- Terminal outcome of a job. -/
inductive JobOutcome where
  | completed
  | deadLettered
  deriving DecidableEq, Repr

/-- Modelled from the spec: the queue's retry loop (bullmq library code, not
in this repository). `handler n` is whether attempt `n` succeeds; the fuel
argument equals the attempts still permitted. Returns the number of attempts
run, the delays slept between attempts, and the terminal outcome: a failing
attempt is retried after `retryDelay` while attempts remain, and the job is
dead-lettered after the final failed attempt, never to be retried. -/
def runAttempts (opts : JobOptions) (handler : ℕ → Bool) :
    ℕ → ℕ → List ℕ → ℕ × List ℕ × JobOutcome
  | 0, made, delays => (made, delays.reverse, .deadLettered)
  | fuel + 1, made, delays =>
    if handler (made + 1) then (made + 1, delays.reverse, .completed)
    else if made + 1 < opts.attempts then
      runAttempts opts handler fuel (made + 1) (retryDelay opts (made + 1) :: delays)
    else (made + 1, delays.reverse, .deadLettered)

/-- Modelled from the spec: run a job to its terminal outcome under `opts`. -/
def runJob (opts : JobOptions) (handler : ℕ → Bool) : ℕ × List ℕ × JobOutcome :=
  runAttempts opts handler opts.attempts 0 []

/-! ## Broadcast bus and subscriber registry -/

/-- The worker's `broadcastProgress`: awaits the redis publish (whose outcome,
the subscriber count or a rejection, is the explicit argument) inside a
try/catch whose catch only logs. -/
def broadcastProgress (publishOutcome : Except String ℕ) : Except String Unit :=
  match publishOutcome with
  | .ok _ => .ok ()
  | .error _ => .ok ()

/-- A live subscriber handle: its readyState and what `send` would do. -/
structure WsClient where
  clientId : ℕ
  readyState : ℕ
  sendOutcome : Except String Unit
  deriving Repr

/-- One iteration of `WebSocketGateway.broadcast`'s per-client body: an open
handle whose send succeeds is kept; a closed handle, or one whose send throws,
is deleted from the set (the catch block only logs and deletes). -/
def deliverTo (c : WsClient) : Option WsClient :=
  if c.readyState = 1 then
    match c.sendOutcome with
    | .ok _ => some c
    | .error _ => none
  else none

/-- `WebSocketGateway.broadcast`: the client set after delivering one event. -/
def wsBroadcast (clients : List WsClient) : List WsClient :=
  clients.filterMap deliverTo

/-! ## Theorems -/

/-- C1: the worker selects the quote with the numerically greatest output
amount among the Raydium and Meteora quotes, the selection is always one of
the two quotes, and on an exact tie of output amounts the Raydium quote wins
every time — a fixed deterministic priority independent of arrival order,
since `selectBest` is a pure function of the two named quotes. -/
theorem selectBest_highest_output (rq mq : DEXQuote) :
    (selectBest rq mq).output = max rq.output mq.output
    ∧ (selectBest rq mq = rq ∨ selectBest rq mq = mq)
    ∧ (rq.output = mq.output → selectBest rq mq = rq) := by
  refine ⟨?_, ?_, ?_⟩
  · unfold selectBest
    split
    · next h => exact (max_eq_right h.le).symm
    · next h => exact (max_eq_left (not_lt.mp h)).symm
  · unfold selectBest
    split
    · exact Or.inr rfl
    · exact Or.inl rfl
  · intro he
    unfold selectBest
    split
    · next h => rw [he] at h; exact absurd h (lt_irrefl _)
    · rfl

/-- Witness for C1: a concrete exact tie is resolved to the Raydium quote. -/
theorem selectBest_highest_output_witness :
    selectBest { dex := "raydium", output := 5, price := 1, fee := 0 }
        { dex := "meteora", output := 5, price := 1, fee := 0 }
      = { dex := "raydium", output := 5, price := 1, fee := 0 } :=
  (selectBest_highest_output _ _).2.2 rfl

/-- C10: the status-to-message mapping duplicated in the worker and in the
WebSocket gateway are extensionally equal on every `OrderStatus` value (both
are total over the five statuses by construction). -/
theorem status_message_maps_agree (s : OrderStatus) :
    workerGetStatusMessage s = gatewayGetStatusMessage s := by
  cases s <;> rfl

/-- C5: each venue quote satisfies output = amount x effective price x
(1 - fee rate) and fee = amount x effective price x fee rate, where the
effective price is the pair's base price times the venue's variance factor;
a pair absent from the price table gets the default base price 100. -/
theorem router_quote_formulas (tokenIn tokenOut : String) (amount r : ℚ) :
    (getRaydiumQuote tokenIn tokenOut amount r).price
        = getBasePrice tokenIn tokenOut * raydiumVarianceFactor r
    ∧ (getRaydiumQuote tokenIn tokenOut amount r).output
        = amount * (getBasePrice tokenIn tokenOut * raydiumVarianceFactor r)
            * (1 - raydiumFeeRate)
    ∧ (getRaydiumQuote tokenIn tokenOut amount r).fee
        = amount * (getBasePrice tokenIn tokenOut * raydiumVarianceFactor r) * raydiumFeeRate
    ∧ (getMeteoraQuote tokenIn tokenOut amount r).price
        = getBasePrice tokenIn tokenOut * meteoraVarianceFactor r
    ∧ (getMeteoraQuote tokenIn tokenOut amount r).output
        = amount * (getBasePrice tokenIn tokenOut * meteoraVarianceFactor r)
            * (1 - meteoraFeeRate)
    ∧ (getMeteoraQuote tokenIn tokenOut amount r).fee
        = amount * (getBasePrice tokenIn tokenOut * meteoraVarianceFactor r) * meteoraFeeRate
    ∧ (priceMap.lookup (tokenIn ++ "-" ++ tokenOut) = none →
        getBasePrice tokenIn tokenOut = 100) := by
  refine ⟨rfl, rfl, rfl, rfl, rfl, rfl, ?_⟩
  intro h
  unfold getBasePrice
  rw [h]
  rfl

/-- Witness for C5: the pair BONK/USDC is absent from the price table, so its
base price is the default 100, and a concrete Raydium quote evaluates to the
stated formula. -/
theorem router_quote_formulas_witness :
    getBasePrice "BONK" "USDC" = 100
    ∧ (getRaydiumQuote "BONK" "USDC" 2 0).output = 2 * (100 * (98/100)) * (1 - 3/1000) := by
  have h := router_quote_formulas "BONK" "USDC" 2 0
  have hd : getBasePrice "BONK" "USDC" = 100 := h.2.2.2.2.2.2 (by rfl)
  refine ⟨hd, ?_⟩
  rw [h.2.1, hd]
  norm_num [raydiumVarianceFactor, raydiumFeeRate]

/-- C2: on a run in which every collaborator succeeds, the worker drives the
order through exactly the statuses pending (set at creation), routing,
building, submitted, confirmed — one store write and one published progress
event per stage, progresses exactly 20, 40, 60, 100 in order, no stage
skipped or repeated — and the handler reports success to the queue. -/
theorem worker_stage_sequence (d : OrderJobData) (rq mq : DEXQuote) (sw : SwapResult)
    (f t : String) (a : ℚ) (oid : String) (now : ℕ) :
    (mkOrder f t a oid now).status = .pending
    ∧ (processOrder d
        { raydiumResult := .ok rq, meteoraResult := .ok mq, swapResult := .ok sw,
          routingWrite := .ok (), buildingWrite := .ok (), submittedWrite := .ok (),
          confirmedWrite := .ok () }).2 = .ok ()
    ∧ OrderStatus.pending ::
        storeStatuses (processOrder d
          { raydiumResult := .ok rq, meteoraResult := .ok mq, swapResult := .ok sw,
            routingWrite := .ok (), buildingWrite := .ok (), submittedWrite := .ok (),
            confirmedWrite := .ok () }).1
        = [.pending, .routing, .building, .submitted, .confirmed]
    ∧ publishedStatuses (processOrder d
        { raydiumResult := .ok rq, meteoraResult := .ok mq, swapResult := .ok sw,
          routingWrite := .ok (), buildingWrite := .ok (), submittedWrite := .ok (),
          confirmedWrite := .ok () }).1
        = [.routing, .building, .submitted, .confirmed]
    ∧ publishedProgress (processOrder d
        { raydiumResult := .ok rq, meteoraResult := .ok mq, swapResult := .ok sw,
          routingWrite := .ok (), buildingWrite := .ok (), submittedWrite := .ok (),
          confirmedWrite := .ok () }).1
        = [20, 40, 60, 100] :=
  ⟨rfl, rfl, rfl, rfl, rfl⟩

/-- C4: whenever the handler ends in an error, the trace is a failure-free
prefix followed by exactly one progress-0 publish carrying the descriptive
message built from that error, nothing executes after it, and the very same
error is re-raised to the queue. -/
theorem worker_failure_single_event (d : OrderJobData) (env : WorkerEnv) (e : String)
    (h : (processOrder d env).2 = .error e) :
    ∃ pre, (processOrder d env).1 = pre ++ [failEvent d.orderId e]
      ∧ failPublishCount pre = 0
      ∧ failPublishCount (processOrder d env).1 = 1
      ∧ failEvent d.orderId e
          = .publish { orderId := d.orderId, status := .pending, progress := 0,
                       message := some ("Order failed: " ++ e) } := by
  obtain ⟨rr, mr, sr, w1, w2, w3, w4⟩ := env
  cases w1 with
  | error e1 =>
    simp only [processOrder, Except.error.injEq] at h
    subst h
    exact ⟨[], rfl, rfl, rfl, rfl⟩
  | ok u1 =>
    cases rr with
    | error e1 =>
      simp only [processOrder, Except.error.injEq] at h
      subst h
      exact ⟨_, rfl, rfl, rfl, rfl⟩
    | ok rqv =>
      cases mr with
      | error e1 =>
        simp only [processOrder, Except.error.injEq] at h
        subst h
        exact ⟨_, rfl, rfl, rfl, rfl⟩
      | ok mqv =>
        cases w2 with
        | error e1 =>
          simp only [processOrder, Except.error.injEq] at h
          subst h
          exact ⟨_, rfl, rfl, rfl, rfl⟩
        | ok u2 =>
          cases sr with
          | error e1 =>
            simp only [processOrder, Except.error.injEq] at h
            subst h
            exact ⟨_, rfl, rfl, rfl, rfl⟩
          | ok swv =>
            cases w3 with
            | error e1 =>
              simp only [processOrder, Except.error.injEq] at h
              subst h
              exact ⟨_, rfl, rfl, rfl, rfl⟩
            | ok u3 =>
              cases w4 with
              | error e1 =>
                simp only [processOrder, Except.error.injEq] at h
                subst h
                exact ⟨_, rfl, rfl, rfl, rfl⟩
              | ok u4 =>
                simp only [processOrder] at h
                exact absurd h (by simp)

/-- Witness for C4: a concrete run whose routing-stage store write rejects
yields exactly the single progress-0 failure publish. -/
theorem worker_failure_single_event_witness :
    ∃ pre,
      (processOrder { orderId := "o1", fromToken := "SOL", toToken := "USDC", amount := 1 }
        { raydiumResult := .ok { dex := "raydium", output := 1, price := 1, fee := 0 },
          meteoraResult := .ok { dex := "meteora", output := 1, price := 1, fee := 0 },
          swapResult := .ok { txHash := "0xabc", executedPrice := 1 },
          routingWrite := .error "boom", buildingWrite := .ok (),
          submittedWrite := .ok (), confirmedWrite := .ok () }).1
        = pre ++ [failEvent "o1" "boom"]
      ∧ failPublishCount pre = 0
      ∧ failPublishCount
          (processOrder { orderId := "o1", fromToken := "SOL", toToken := "USDC", amount := 1 }
            { raydiumResult := .ok { dex := "raydium", output := 1, price := 1, fee := 0 },
              meteoraResult := .ok { dex := "meteora", output := 1, price := 1, fee := 0 },
              swapResult := .ok { txHash := "0xabc", executedPrice := 1 },
              routingWrite := .error "boom", buildingWrite := .ok (),
              submittedWrite := .ok (), confirmedWrite := .ok () }).1 = 1
      ∧ failEvent "o1" "boom"
          = .publish { orderId := "o1", status := .pending, progress := 0,
                       message := some ("Order failed: " ++ "boom") } :=
  worker_failure_single_event
    { orderId := "o1", fromToken := "SOL", toToken := "USDC", amount := 1 }
    { raydiumResult := .ok { dex := "raydium", output := 1, price := 1, fee := 0 },
      meteoraResult := .ok { dex := "meteora", output := 1, price := 1, fee := 0 },
      swapResult := .ok { txHash := "0xabc", executedPrice := 1 },
      routingWrite := .error "boom", buildingWrite := .ok (),
      submittedWrite := .ok (), confirmedWrite := .ok () } "boom" rfl

/-- Helper: the retry loop never runs more attempts than configured, for any
handler, whenever it starts below the configured attempt count. -/
theorem runAttempts_le (opts : JobOptions) (handler : ℕ → Bool) :
    ∀ (fuel made : ℕ) (delays : List ℕ), made < opts.attempts →
      (runAttempts opts handler fuel made delays).1 ≤ opts.attempts
  | 0, made, delays, h => Nat.le_of_lt h
  | fuel + 1, made, delays, h => by
    simp only [runAttempts]
    split
    · exact h
    · split
      · next hlt => exact runAttempts_le opts handler fuel (made + 1) _ hlt
      · exact h

/-- C3: under the queue's configuration (3 attempts, exponential backoff with
base 2000), a handler that fails on every attempt is run exactly 3 times with
delays equal to base x 2^0 and base x 2^1 between attempts, the delays are
non-decreasing and each is bounded by the configuration-determined maximum
base x 2^(attempts-2), the job terminates dead-lettered with no further
automatic retry, and no handler whatsoever is ever run a 4th time. -/
theorem queue_retry_backoff_policy :
    runJob orderQueueJobOptions (fun _ => false)
        = (orderQueueJobOptions.attempts,
           [retryDelay orderQueueJobOptions 1, retryDelay orderQueueJobOptions 2],
           .deadLettered)
    ∧ runJob orderQueueJobOptions (fun _ => false) = (3, [2000, 4000], .deadLettered)
    ∧ ((runJob orderQueueJobOptions (fun _ => false)).2.1.Chain' (fun x y => x ≤ y))
    ∧ ((runJob orderQueueJobOptions (fun _ => false)).2.1.all
        (fun t => t ≤ orderQueueJobOptions.backoff.delay
            * 2 ^ (orderQueueJobOptions.attempts - 2)) = true)
    ∧ (∀ handler : ℕ → Bool,
        (runJob orderQueueJobOptions handler).1 ≤ orderQueueJobOptions.attempts) := by
  refine ⟨by decide, by decide, ?_, by decide, ?_⟩
  · rw [show (runJob orderQueueJobOptions (fun _ => false)).2.1 = [2000, 4000] from by decide]
    exact List.chain'_pair.mpr (by norm_num)
  · intro handler
    exact runAttempts_le orderQueueJobOptions handler orderQueueJobOptions.attempts 0 []
      (by decide)

/-- C6: a submission with a missing or empty token symbol, a missing amount,
or an amount at most 0 is rejected with a 400 and leaves the store and the
queue untouched; a valid submission creates exactly one pending order and
enqueues exactly one job carrying the order id, the token pair and the
amount, answering 201 with the new id and status. -/
theorem controller_create_order_spec (req : CreateOrderInput) (newId : String) (now : ℕ)
    (st : AppState) :
    (invalidRequest req = true ↔
      req.fromToken = none ∨ req.fromToken = some "" ∨ req.toToken = none
        ∨ req.toToken = some "" ∨ req.amount = none ∨ ∃ a, req.amount = some a ∧ a ≤ 0)
    ∧ (invalidRequest req = true →
        createOrderController req newId now st = ({ code := 400 }, st))
    ∧ (∀ f t a, req.fromToken = some f → req.toToken = some t → req.amount = some a →
        invalidRequest req = false →
        createOrderController req newId now st =
          ({ code := 201, orderId := some newId, status := some .pending },
           { orders := (newId, mkOrder f t a newId now) :: st.orders,
             jobs := st.jobs
               ++ [{ orderId := newId, fromToken := f, toToken := t, amount := a }] })) := by
  refine ⟨?_, ?_, ?_⟩
  · have key : ∀ q : ℚ, (q = 0 ∨ q ≤ 0) ↔ q ≤ 0 := fun q => or_iff_right_of_imp le_of_eq
    obtain ⟨ofrom, oto, oamt⟩ := req
    cases ofrom <;> cases oto <;> cases oamt <;>
      simp [invalidRequest, strFalsy, amountFalsy, or_assoc, key]
  · intro h
    simp [createOrderController, h]
  · intro f t a hf ht ha hv
    simp [createOrderController, hv, hf, ht, ha, mkOrder]

/-- Witness for C6: `amount = 0` is rejected with no order created and no job
enqueued, while `amount = 1` creates one pending order and enqueues one job. -/
theorem controller_create_order_spec_witness :
    createOrderController
        { fromToken := some "SOL", toToken := some "USDC", amount := some 0 }
        "id1" 0 { orders := [], jobs := [] }
      = ({ code := 400 }, { orders := [], jobs := [] })
    ∧ createOrderController
        { fromToken := some "SOL", toToken := some "USDC", amount := some 1 }
        "id1" 0 { orders := [], jobs := [] }
      = ({ code := 201, orderId := some "id1", status := some .pending },
         { orders := [("id1", mkOrder "SOL" "USDC" 1 "id1" 0)],
           jobs := [{ orderId := "id1", fromToken := "SOL", toToken := "USDC",
                      amount := 1 }] }) := by
  constructor
  · exact (controller_create_order_spec
      { fromToken := some "SOL", toToken := some "USDC", amount := some 0 }
      "id1" 0 { orders := [], jobs := [] }).2.1 (by rfl)
  · have h := (controller_create_order_spec
      { fromToken := some "SOL", toToken := some "USDC", amount := some 1 }
      "id1" 0 { orders := [], jobs := [] }).2.2 "SOL" "USDC" 1 rfl rfl rfl (by rfl)
    simpa using h

/-- C7: `updateOrderStatus` on an id absent from the store returns `null` and
leaves the store unchanged, `getOrder` on an unknown id returns not-found,
and for a known id `updateOrderStatus` always returns the merged order (it
never raises: it is total and yields `some`). -/
theorem store_unknown_id_spec (store : OrdersStore) (orderId : String)
    (status : OrderStatus) (upd : OrderUpdates) (now : ℕ) :
    (store.lookup orderId = none →
        updateOrderStatus store orderId status upd now = (none, store)
        ∧ getOrder store orderId = none)
    ∧ (∀ o, store.lookup orderId = some o →
        updateOrderStatus store orderId status upd now
          = (some (applyUpdates o status upd now),
             store.map
               (fun p => if p.1 = orderId then (p.1, applyUpdates o status upd now) else p))) := by
  constructor
  · intro h
    exact ⟨by simp [updateOrderStatus, h], by simp [getOrder, h]⟩
  · intro o h
    simp [updateOrderStatus, h]

/-- Witness for C7: a lookup miss on the empty store returns not-found and
writes nothing; a hit on a one-entry store returns the merged order. -/
theorem store_unknown_id_spec_witness :
    (updateOrderStatus [] "missing" .routing {} 5 = (none, [])
      ∧ getOrder [] "missing" = none)
    ∧ updateOrderStatus [("a", mkOrder "SOL" "USDC" 1 "a" 0)] "a" .routing {} 5
        = (some (applyUpdates (mkOrder "SOL" "USDC" 1 "a" 0) .routing {} 5),
           [("a", applyUpdates (mkOrder "SOL" "USDC" 1 "a" 0) .routing {} 5)]) := by
  refine ⟨(store_unknown_id_spec [] "missing" .routing {} 5).1 rfl, ?_⟩
  have h := (store_unknown_id_spec [("a", mkOrder "SOL" "USDC" 1 "a" 0)] "a" .routing {} 5).2
      (mkOrder "SOL" "USDC" 1 "a" 0) (by rfl)
  simpa using h

/-- C8: publishing progress is fire-and-forget — `broadcastProgress` returns
successfully whatever the underlying publish did, including delivery to zero
subscribers — and the gateway's delivery keeps a handle in the registry after
a broadcast exactly when it was registered, open, and its send succeeded, so
a send failure or a closed handle is pruned from the set rather than raised. -/
theorem broadcast_fire_and_forget :
    (∀ publishOutcome, broadcastProgress publishOutcome = .ok ())
    ∧ broadcastProgress (.ok 0) = .ok ()
    ∧ (∀ (clients : List WsClient) (c : WsClient),
        c ∈ wsBroadcast clients ↔
          c ∈ clients ∧ c.readyState = 1 ∧ ∃ u, c.sendOutcome = .ok u) := by
  refine ⟨?_, rfl, ?_⟩
  · intro p
    cases p <;> rfl
  · intro clients c
    simp only [wsBroadcast, List.mem_filterMap]
    constructor
    · rintro ⟨a, ha, hd⟩
      unfold deliverTo at hd
      by_cases h1 : a.readyState = 1
      · rw [if_pos h1] at hd
        cases hs : a.sendOutcome with
        | ok u =>
          rw [hs] at hd
          cases hd
          exact ⟨ha, h1, u, hs⟩
        | error msg =>
          rw [hs] at hd
          cases hd
      · rw [if_neg h1] at hd
        cases hd
    · rintro ⟨hc, h1, u, hu⟩
      exact ⟨c, hc, by simp [deliverTo, h1, hu]⟩

/-- Witness for C8: a rejected publish still reports success, and one
broadcast over a set holding an open healthy handle, an open failing handle
and a closed handle keeps exactly the healthy one. -/
theorem broadcast_fire_and_forget_witness :
    broadcastProgress (.error "no subscriber") = .ok ()
    ∧ ({ clientId := 1, readyState := 1, sendOutcome := .ok () } : WsClient)
        ∈ wsBroadcast
          [{ clientId := 1, readyState := 1, sendOutcome := .ok () },
           { clientId := 2, readyState := 1, sendOutcome := .error "send failed" },
           { clientId := 3, readyState := 3, sendOutcome := .ok () }] := by
  constructor
  · exact (broadcast_fire_and_forget.1) (.error "no subscriber")
  · exact (broadcast_fire_and_forget.2.2 _ _).mpr (by simp)

/-- C9: one store update changes only the status, the provided optional
fields and the updated-at timestamp: the id, the token pair, the amount and
the created-at timestamp of the stored order survive every update, provided
optional fields are overwritten and absent ones kept, and the amount also
survives any whole sequence of updates, staying at its creation value. -/
theorem update_preserves_identity_fields (o : Order) (status : OrderStatus)
    (upd : OrderUpdates) (now : ℕ) :
    ((applyUpdates o status upd now).orderId = o.orderId
      ∧ (applyUpdates o status upd now).fromToken = o.fromToken
      ∧ (applyUpdates o status upd now).toToken = o.toToken
      ∧ (applyUpdates o status upd now).amount = o.amount
      ∧ (applyUpdates o status upd now).createdAt = o.createdAt)
    ∧ ((applyUpdates o status upd now).status = status
      ∧ (applyUpdates o status upd now).updatedAt = now)
    ∧ (upd.selectedDex = none →
        (applyUpdates o status upd now).selectedDex = o.selectedDex)
    ∧ (∀ v, upd.selectedDex = some v →
        (applyUpdates o status upd now).selectedDex = some v)
    ∧ (upd.outputAmount = none →
        (applyUpdates o status upd now).outputAmount = o.outputAmount)
    ∧ (∀ v, upd.outputAmount = some v →
        (applyUpdates o status upd now).outputAmount = some v)
    ∧ (upd.transactionHash = none →
        (applyUpdates o status upd now).transactionHash = o.transactionHash)
    ∧ (∀ v, upd.transactionHash = some v →
        (applyUpdates o status upd now).transactionHash = some v)
    ∧ (∀ steps : List (OrderStatus × OrderUpdates × ℕ),
        (steps.foldl (fun acc s => applyUpdates acc s.1 s.2.1 s.2.2) o).amount
          = o.amount) := by
  refine ⟨⟨rfl, rfl, rfl, rfl, rfl⟩, ⟨rfl, rfl⟩, ?_, ?_, ?_, ?_, ?_, ?_, ?_⟩
  · intro h; simp [applyUpdates, h]
  · intro v h; simp [applyUpdates, h]
  · intro h; simp [applyUpdates, h]
  · intro v h; simp [applyUpdates, h]
  · intro h; simp [applyUpdates, h]
  · intro v h; simp [applyUpdates, h]
  · intro steps
    induction steps generalizing o with
    | nil => rfl
    | cons s rest ih =>
      simpa [List.foldl_cons] using ih (applyUpdates o s.1 s.2.1 s.2.2)

/-- Witness for C9: concrete updates — one providing a venue, an output and a
hash, one providing nothing — preserve the identity fields and the amount. -/
theorem update_preserves_identity_fields_witness :
    (applyUpdates (mkOrder "SOL" "USDC" 1 "a" 0) .building
        { selectedDex := some "meteora", outputAmount := some 5,
          transactionHash := some "0xdead" } 7).amount = 1
    ∧ (applyUpdates (mkOrder "SOL" "USDC" 1 "a" 0) .building
        { selectedDex := some "meteora", outputAmount := some 5,
          transactionHash := some "0xdead" } 7).selectedDex = some "meteora"
    ∧ (applyUpdates (mkOrder "SOL" "USDC" 1 "a" 0) .routing {} 7).selectedDex = none
    ∧ (applyUpdates (mkOrder "SOL" "USDC" 1 "a" 0) .routing {} 7).outputAmount = none
    ∧ (applyUpdates (mkOrder "SOL" "USDC" 1 "a" 0) .routing {} 7).transactionHash = none := by
  obtain ⟨⟨-, -, -, hamt, -⟩, -, -, hsel, -, hout, -, htx, -⟩ :=
    update_preserves_identity_fields (mkOrder "SOL" "USDC" 1 "a" 0) .building
      { selectedDex := some "meteora", outputAmount := some 5,
        transactionHash := some "0xdead" } 7
  obtain ⟨-, -, hsel0, -, hout0, -, htx0, -, -⟩ :=
    update_preserves_identity_fields (mkOrder "SOL" "USDC" 1 "a" 0) .routing {} 7
  exact ⟨hamt, hsel "meteora" rfl, hsel0 rfl, hout0 rfl, htx0 rfl⟩

end OrderEngine
